import Mathlib

/-!
Verification of the Manimator front-end core: the Session/Token manager
(`AuthProvider`), the Chat/Generation orchestrator (`ChatProvider`), the
animation Job Client (`useAnimation`), and the Job Poller (the polling
effect of `AnimationGenerator`).  Each definition is a shallow embedding of
the corresponding TypeScript function; network interaction is made explicit
by passing the fetch outcome as a parameter, and thrown JavaScript
exceptions are modelled as explicit error values.
-/

namespace Manimator

/-- Model of a thrown JavaScript error value: its constructor name
(`Error`, `TypeError`, `SyntaxError`, ...) and its `message` property. -/
structure JsErr where
  name : String
  message : String
  deriving Repr, DecidableEq

/-- User record returned by the auth endpoints (`{id, email, name}`). -/
structure User where
  id : String
  email : String
  name : String
  deriving Repr, DecidableEq

/-- State owned by `AuthProvider` together with the persisted token slot:
`storedToken` models the durable `localStorage` key `auth_token`, and
`user` / `isAuthenticated` model the React state of the provider. -/
structure AuthState where
  storedToken : Option String
  user : Option User
  isAuthenticated : Bool
  deriving Repr, DecidableEq

/-- Embedding of `logout` (identical in both copies of `AuthProvider`):
`localStorage.removeItem("auth_token"); setUser(null); setIsAuthenticated(false)`. -/
def logout (_s : AuthState) : AuthState :=
  { storedToken := none, user := none, isAuthenticated := false }

/-- Possible parses of the `validate` response body: `invalid` models a
`response.json()` rejection, `null` the JSON literal null, and `userData`
an object parsed as the user record. -/
inductive ValidateBody
  | invalid (e : JsErr)
  | null
  | userData (u : User)
  deriving Repr, DecidableEq

/-- Outcome of a fetch: either the promise rejected before any response was
obtained (connection-level failure), or a response arrived with the given
`ok` flag and body. -/
inductive FetchOutcome (β : Type)
  | networkFailure (e : JsErr)
  | response (ok : Bool) (body : β)
  deriving Repr, DecidableEq

/-- Result of a call that may let an exception escape to the caller:
`thrown` is the propagated error (if any) and `state` the auth state after
the call. -/
structure ValidateResult where
  thrown : Option JsErr
  state : AuthState
  deriving Repr, DecidableEq

/-- Embedding of `validateToken` in `AuthProvider`: on an ok response the
parsed body is installed as the user and `isAuthenticated` is set; on a
non-ok response the persisted token is removed; any exception inside the
`try` (fetch rejection or a `json()` rejection) lands in the `catch`,
which logs and removes the persisted token.  Nothing is rethrown. -/
def validateToken (outcome : FetchOutcome ValidateBody) (s : AuthState) : ValidateResult :=
  match outcome with
  | .networkFailure _ => ⟨none, { s with storedToken := none }⟩
  | .response ok body =>
    if ok then
      match body with
      | .invalid _ => ⟨none, { s with storedToken := none }⟩
      | .null => ⟨none, { s with user := none, isAuthenticated := true }⟩
      | .userData u => ⟨none, { s with user := some u, isAuthenticated := true }⟩
    else
      ⟨none, { s with storedToken := none }⟩

/-- C7: when `validateToken` runs at startup (empty session, persisted
token present) and the server responds non-2xx or a network failure
occurs, the persisted token is removed, the session stays
unauthenticated, and no error propagates to the caller. -/
theorem validateToken_failure_degrades_silently (outcome : FetchOutcome ValidateBody)
    (s : AuthState) (huser : s.user = none) (hauth : s.isAuthenticated = false)
    (hfail : (∃ e, outcome = .networkFailure e) ∨ ∃ body, outcome = .response false body) :
    (validateToken outcome s).thrown = none ∧
    (validateToken outcome s).state.storedToken = none ∧
    (validateToken outcome s).state.user = none ∧
    (validateToken outcome s).state.isAuthenticated = false := by
  rcases hfail with ⟨e, rfl⟩ | ⟨body, rfl⟩
  · exact ⟨rfl, rfl, huser, hauth⟩
  · exact ⟨rfl, rfl, huser, hauth⟩

/-- Witness for C7: a concrete startup state with a persisted token and a
non-2xx validate response. -/
theorem validateToken_failure_degrades_silently_witness :
    (validateToken (.response false .null) ⟨some "tok", none, false⟩).thrown = none ∧
    (validateToken (.response false .null) ⟨some "tok", none, false⟩).state.storedToken = none ∧
    (validateToken (.response false .null) ⟨some "tok", none, false⟩).state.user = none ∧
    (validateToken (.response false .null) ⟨some "tok", none, false⟩).state.isAuthenticated = false :=
  validateToken_failure_degrades_silently (.response false .null) ⟨some "tok", none, false⟩
    rfl rfl (Or.inr ⟨.null, rfl⟩)

/-- C8: `logout` always succeeds, clears the token, user and
`isAuthenticated`, removes the persisted token key, and is idempotent:
a second `logout` leaves the state identical. -/
theorem logout_idempotent_and_clears (s : AuthState) :
    logout (logout s) = logout s ∧
    (logout s).storedToken = none ∧
    (logout s).user = none ∧
    (logout s).isAuthenticated = false :=
  ⟨rfl, rfl, rfl, rfl⟩

/-- Role of a chat transcript entry. -/
inductive Role
  | user
  | assistant
  deriving Repr, DecidableEq

/-- Status of a chat transcript entry (`ChatMessage.status` in
`chat-service.ts`; optional in the interface). -/
inductive MsgStatus
  | pending
  | generating
  | completed
  | error
  deriving Repr, DecidableEq

/-- Embedding of the `ChatMessage` interface of `chat-service.ts`.
Timestamps are abstracted as naturals. -/
structure ChatMessage where
  id : String
  role : Role
  content : String
  timestamp : Nat
  status : Option MsgStatus
  animationUrl : Option String
  deriving Repr, DecidableEq

/-- Embedding of `GenerateAnimationResponse` of `chat-service.ts`. -/
structure GenerateAnimationResponse where
  message : String
  animationUrl : Option String
  error : Option String
  deriving Repr, DecidableEq

/-- The transcript update `prev.map(msg => msg.id === targetId ? { ...msg,
status } : msg)` used by `sendMessage` to reconcile the pending user
entry. -/
def markById (targetId : String) (st : MsgStatus) (msgs : List ChatMessage) : List ChatMessage :=
  msgs.map fun m => if m.id = targetId then { m with status := some st } else m

/-- Result of a `sendMessage` call: the error that propagated to the
caller (if any) and the transcript after the call. -/
structure SendMessageResult where
  thrown : Option String
  messages : List ChatMessage
  deriving Repr, DecidableEq

/-- The generic assistant entry content appended by `sendMessage` when the
backend call fails. -/
def sendMessageFailureText : String :=
  "Sorry, I encountered an error while generating the animation. Please try again."

/-- Embedding of `sendMessage` in `ChatProvider` (use-chat): guards on
authentication and on the stored token (throwing without touching the
transcript), appends the pending user entry, then either marks it
completed and appends the assistant response, or marks it error and
appends a generic error entry.  The backend call
(`chatService.sendMessage`) outcome is passed in as `backend`; fresh
uuids and timestamps are passed as `userMsgId`/`asstMsgId`/`t1`/`t2`. -/
def sendMessage (isAuthenticated : Bool) (user : Option User) (storedToken : Option String)
    (content : String) (userMsgId asstMsgId : String) (t1 t2 : Nat)
    (backend : Except JsErr GenerateAnimationResponse)
    (prev : List ChatMessage) : SendMessageResult :=
  if !isAuthenticated || user.isNone then
    ⟨some "Must be authenticated to send messages", prev⟩
  else if storedToken.isNone then
    ⟨some "No authentication token found", prev⟩
  else
    let userMessage : ChatMessage := ⟨userMsgId, .user, content, t1, some .pending, none⟩
    let afterAppend := prev ++ [userMessage]
    match backend with
    | .ok response =>
        ⟨none, markById userMsgId .completed afterAppend ++
          [⟨asstMsgId, .assistant, response.message, t2, some .completed, response.animationUrl⟩]⟩
    | .error _ =>
        ⟨none, markById userMsgId .error afterAppend ++
          [⟨asstMsgId, .assistant, sendMessageFailureText, t2, some .error, none⟩]⟩

/-- Transcript after the synchronous prefix of `sendMessage` (everything
before the first `await`): past the guards, exactly the pending user
entry has been appended. -/
def sendMessageSyncMessages (isAuthenticated : Bool) (user : Option User)
    (storedToken : Option String) (content : String) (userMsgId : String) (t1 : Nat)
    (prev : List ChatMessage) : List ChatMessage :=
  if !isAuthenticated || user.isNone then prev
  else if storedToken.isNone then prev
  else prev ++ [⟨userMsgId, .user, content, t1, some .pending, none⟩]

/-- Embedding of `clearMessages` in `ChatProvider`. -/
def clearMessages (_msgs : List ChatMessage) : List ChatMessage := []

/-- C3 counterexample: with an authenticated session, `sendMessage ""` does
not fail fast — no error (in particular no ValidationError) propagates, and
two transcript entries are appended (the pending-then-completed user entry
with empty content, and the assistant entry). -/
theorem sendMessage_empty_not_rejected :
    sendMessage true (some ⟨"u1", "ann@example.com", "Ann"⟩) (some "tok") "" "m1" "m2" 0 1
        (.ok ⟨"done", some "/v/x.mp4", none⟩) []
      = ⟨none, [⟨"m1", .user, "", 0, some .completed, none⟩,
                ⟨"m2", .assistant, "done", 1, some .completed, some "/v/x.mp4"⟩]⟩ := by
  rfl

/-- C3 amended: `sendMessage` performs no empty-content validation.  With an
authenticated session and stored token it returns normally on empty content
and appends two entries, exactly as for non-empty content; whether an error
propagates never depends on the content. -/
theorem sendMessage_no_empty_validation (u : User) (tok userMsgId asstMsgId : String)
    (t1 t2 : Nat) (backend : Except JsErr GenerateAnimationResponse) (prev : List ChatMessage) :
    ((sendMessage true (some u) (some tok) "" userMsgId asstMsgId t1 t2 backend prev).thrown
        = none ∧
      (sendMessage true (some u) (some tok) "" userMsgId asstMsgId t1 t2
          backend prev).messages.length = prev.length + 2) ∧
    ∀ (isAuth : Bool) (user : Option User) (st : Option String) (c : String),
      (sendMessage isAuth user st "" userMsgId asstMsgId t1 t2 backend prev).thrown
        = (sendMessage isAuth user st c userMsgId asstMsgId t1 t2 backend prev).thrown := by
  constructor
  · cases backend <;> simp [sendMessage, markById]
  · intro isAuth user st c
    cases isAuth <;> cases user <;> cases st <;> cases backend <;> simp [sendMessage]

/-- C5: the full `sendMessage` contract.  Without an authenticated session
it throws the state error and the transcript is untouched; with one, the
pending user entry is appended synchronously, and the final transcript is
that synchronous transcript with the user entry reconciled (completed on
backend success, error on backend failure) plus the appended assistant
entry carrying the returned content and animationUrl, or the generic
failure text. -/
theorem sendMessage_contract (isAuth : Bool) (user : Option User) (tok : Option String)
    (content userMsgId asstMsgId : String) (t1 t2 : Nat)
    (backend : Except JsErr GenerateAnimationResponse) (prev : List ChatMessage) :
    ((isAuth = false ∨ user = none) →
      sendMessage isAuth user tok content userMsgId asstMsgId t1 t2 backend prev
        = ⟨some "Must be authenticated to send messages", prev⟩) ∧
    (isAuth = true → user.isSome → tok = none →
      sendMessage isAuth user tok content userMsgId asstMsgId t1 t2 backend prev
        = ⟨some "No authentication token found", prev⟩) ∧
    (isAuth = true → user.isSome → tok.isSome →
      sendMessageSyncMessages isAuth user tok content userMsgId t1 prev
        = prev ++ [⟨userMsgId, .user, content, t1, some .pending, none⟩]) ∧
    (∀ resp, isAuth = true → user.isSome → tok.isSome → backend = .ok resp →
      sendMessage isAuth user tok content userMsgId asstMsgId t1 t2 backend prev
        = ⟨none, markById userMsgId .completed
              (sendMessageSyncMessages isAuth user tok content userMsgId t1 prev) ++
            [⟨asstMsgId, .assistant, resp.message, t2, some .completed, resp.animationUrl⟩]⟩) ∧
    (∀ e, isAuth = true → user.isSome → tok.isSome → backend = .error e →
      sendMessage isAuth user tok content userMsgId asstMsgId t1 t2 backend prev
        = ⟨none, markById userMsgId .error
              (sendMessageSyncMessages isAuth user tok content userMsgId t1 prev) ++
            [⟨asstMsgId, .assistant, sendMessageFailureText, t2, some .error, none⟩]⟩) := by
  refine ⟨?_, ?_, ?_, ?_, ?_⟩
  · rintro (rfl | rfl)
    · cases user <;> simp_all [sendMessage]
    · simp [sendMessage]
  · rintro rfl hu rfl
    cases user <;> simp_all [sendMessage]
  · rintro rfl hu ht
    cases user <;> cases tok <;> simp_all [sendMessageSyncMessages]
  · rintro resp rfl hu ht rfl
    cases user <;> cases tok <;> simp_all [sendMessage, sendMessageSyncMessages]
  · rintro e rfl hu ht rfl
    cases user <;> cases tok <;> simp_all [sendMessage, sendMessageSyncMessages]

/-- Witness for C5: each branch of the contract applied at concrete inputs. -/
theorem sendMessage_contract_witness :
    (sendMessage false none none "hi" "m1" "m2" 0 1 (.ok ⟨"ok", none, none⟩) []
      = ⟨some "Must be authenticated to send messages", []⟩) ∧
    (sendMessage true (some ⟨"u1", "a", "A"⟩) none "hi" "m1" "m2" 0 1 (.ok ⟨"ok", none, none⟩) []
      = ⟨some "No authentication token found", []⟩) ∧
    (sendMessageSyncMessages true (some ⟨"u1", "a", "A"⟩) (some "tok") "hi" "m1" 0 []
      = [⟨"m1", .user, "hi", 0, some .pending, none⟩]) ∧
    (sendMessage true (some ⟨"u1", "a", "A"⟩) (some "tok") "hi" "m1" "m2" 0 1
        (.ok ⟨"ok", some "/v/a.mp4", none⟩) []
      = ⟨none, markById "m1" .completed
            (sendMessageSyncMessages true (some ⟨"u1", "a", "A"⟩) (some "tok") "hi" "m1" 0 []) ++
          [⟨"m2", .assistant, "ok", 1, some .completed, some "/v/a.mp4"⟩]⟩) ∧
    (sendMessage true (some ⟨"u1", "a", "A"⟩) (some "tok") "hi" "m1" "m2" 0 1
        (.error ⟨"TypeError", "Failed to fetch"⟩) []
      = ⟨none, markById "m1" .error
            (sendMessageSyncMessages true (some ⟨"u1", "a", "A"⟩) (some "tok") "hi" "m1" 0 []) ++
          [⟨"m2", .assistant, sendMessageFailureText, 1, some .error, none⟩]⟩) :=
  ⟨(sendMessage_contract false none none "hi" "m1" "m2" 0 1 (.ok ⟨"ok", none, none⟩) []).1
      (Or.inl rfl),
   (sendMessage_contract true (some ⟨"u1", "a", "A"⟩) none "hi" "m1" "m2" 0 1
      (.ok ⟨"ok", none, none⟩) []).2.1 rfl rfl rfl,
   (sendMessage_contract true (some ⟨"u1", "a", "A"⟩) (some "tok") "hi" "m1" "m2" 0 1
      (.ok ⟨"ok", none, none⟩) []).2.2.1 rfl rfl rfl,
   (sendMessage_contract true (some ⟨"u1", "a", "A"⟩) (some "tok") "hi" "m1" "m2" 0 1
      (.ok ⟨"ok", some "/v/a.mp4", none⟩) []).2.2.2.1 ⟨"ok", some "/v/a.mp4", none⟩ rfl rfl rfl rfl,
   (sendMessage_contract true (some ⟨"u1", "a", "A"⟩) (some "tok") "hi" "m1" "m2" 0 1
      (.error ⟨"TypeError", "Failed to fetch"⟩) []).2.2.2.2 ⟨"TypeError", "Failed to fetch"⟩
      rfl rfl rfl rfl⟩

/-- Only the `status` field may differ between `b` and `a`. -/
def statusOnlyUpdate (a b : ChatMessage) : Prop :=
  b.id = a.id ∧ b.role = a.role ∧ b.content = a.content ∧
  b.timestamp = a.timestamp ∧ b.animationUrl = a.animationUrl

/-- `new` extends `old` append-only: every prior entry is still at its
position, unchanged except possibly its `status` field. -/
def appendOnlyFrom (old new : List ChatMessage) : Prop :=
  List.Forall₂ statusOnlyUpdate old (new.take old.length)

theorem forall₂_statusOnly_self (l : List ChatMessage) :
    List.Forall₂ statusOnlyUpdate l l := by
  induction l with
  | nil => exact List.Forall₂.nil
  | cons a l ih => exact List.Forall₂.cons ⟨rfl, rfl, rfl, rfl, rfl⟩ ih

theorem forall₂_statusOnly_markById (tid : String) (st : MsgStatus) (l : List ChatMessage) :
    List.Forall₂ statusOnlyUpdate l (markById tid st l) := by
  induction l with
  | nil => exact List.Forall₂.nil
  | cons a l ih =>
    refine List.Forall₂.cons ?_ ih
    by_cases h : a.id = tid <;> simp [markById, h, statusOnlyUpdate]

theorem appendOnlyFrom_self (l : List ChatMessage) : appendOnlyFrom l l := by
  unfold appendOnlyFrom
  rw [List.take_length]
  exact forall₂_statusOnly_self l

theorem markById_append (tid : String) (st : MsgStatus) (l₁ l₂ : List ChatMessage) :
    markById tid st (l₁ ++ l₂) = markById tid st l₁ ++ markById tid st l₂ := by
  simp [markById]

theorem appendOnlyFrom_markById_append (tid : String) (st : MsgStatus)
    (prev rest : List ChatMessage) :
    appendOnlyFrom prev (markById tid st prev ++ rest) := by
  unfold appendOnlyFrom
  rw [List.take_left' (by simp [markById])]
  exact forall₂_statusOnly_markById tid st prev

/-- C9: `sendMessage` (the only transcript-writing operation exposed to
callers besides `clearMessages`) is append-only: every prior entry remains
at its position with all fields except possibly `status` unchanged; it only
appends new entries or reconciles the status of an existing one in place. -/
theorem sendMessage_append_only (isAuth : Bool) (user : Option User) (tok : Option String)
    (content userMsgId asstMsgId : String) (t1 t2 : Nat)
    (backend : Except JsErr GenerateAnimationResponse) (prev : List ChatMessage) :
    appendOnlyFrom prev
      (sendMessage isAuth user tok content userMsgId asstMsgId t1 t2 backend prev).messages := by
  cases isAuth <;> cases user <;> cases tok <;> cases backend <;>
    simp only [sendMessage, Bool.not_true, Bool.not_false, Option.isNone_none,
      Option.isNone_some, Bool.false_or, Bool.true_or, Bool.or_false, Bool.or_true,
      if_true, if_false, Bool.true_and, Bool.false_and, ite_true, ite_false] <;>
    first
      | exact appendOnlyFrom_self prev
      | (rw [markById_append, List.append_assoc]; exact appendOnlyFrom_markById_append _ _ _ _)

/-- Embedding of the `Animation` interface of the `useAnimation` hook.
The TypeScript field `_id` is embedded as `id`; `status` is kept as a raw
string, as in the wire format. -/
structure Animation where
  id : String
  user_id : String
  prompt : String
  status : String
  video_path : Option String
  error : Option String
  created_at : String
  updated_at : String
  deriving Repr, DecidableEq

/-- Possible parses of a status-endpoint response body: `invalid` models a
`response.json()` rejection, `null` the JSON literal null, and `obj` a JSON
object carrying an optional `message` field and the animation payload. -/
inductive StatusBody
  | invalid (e : JsErr)
  | null
  | obj (message : Option String) (anim : Animation)
  deriving Repr, DecidableEq

/-- Embedding of `checkStatus` in the `useAnimation` hook.  The guard on
`isAuthenticated` throws before the `try`; inside the `try`, `getToken`
throws when no token is stored, a fetch rejection propagates, a non-ok
response throws `new Error(data.message || fallback)` — where reading
`data.message` itself throws a `TypeError` when the body parsed to null,
and a `json()` rejection throws its own error — and the `catch` block
records the message and rethrows the error unchanged.  An ok response
returns the parsed body (null when the body was the JSON literal null). -/
def checkStatus (isAuthenticated : Bool) (storedToken : Option String)
    (outcome : FetchOutcome StatusBody) : Except JsErr (Option Animation) :=
  if !isAuthenticated then
    .error ⟨"Error", "Not authenticated"⟩
  else if storedToken.isNone then
    .error ⟨"Error", "Not authenticated"⟩
  else match outcome with
  | .networkFailure e => .error e
  | .response ok body =>
    if ok then
      match body with
      | .invalid e => .error e
      | .null => .ok none
      | .obj _ anim => .ok (some anim)
    else
      match body with
      | .invalid e => .error e
      | .null => .error ⟨"TypeError", "Cannot read properties of null"⟩
      | .obj message _ => .error ⟨"Error", message.getD "Failed to check animation status"⟩

/-- C6 counterexample: a connection-level failure and a server non-2xx
response can surface from `checkStatus` as errors of the same kind (both
`TypeError`), so the caller cannot tell them apart; no `NetworkError` kind
exists. -/
theorem checkStatus_error_kinds_collide :
    checkStatus true (some "tok") (.networkFailure ⟨"TypeError", "Failed to fetch"⟩)
      = .error ⟨"TypeError", "Failed to fetch"⟩ ∧
    checkStatus true (some "tok") (.response false .null)
      = .error ⟨"TypeError", "Cannot read properties of null"⟩ ∧
    (JsErr.mk "TypeError" "Failed to fetch").name
      = (JsErr.mk "TypeError" "Cannot read properties of null").name :=
  ⟨rfl, rfl, rfl⟩

/-- C6 amended: the Job Client defines no error kinds of its own — a
connection-level failure is surfaced by rethrowing the runtime rejection
value unchanged, and a non-2xx response with a JSON object body is
surfaced as a generic `Error` built from the body message (or a fallback);
the two classes are not reliably distinguishable by the caller. -/
theorem checkStatus_error_surface (t : String) (e : JsErr) (message : Option String)
    (anim : Animation) :
    checkStatus true (some t) (.networkFailure e) = .error e ∧
    checkStatus true (some t) (.response false (.obj message anim))
      = .error ⟨"Error", message.getD "Failed to check animation status"⟩ := by
  constructor <;> simp [checkStatus]

/-- Possible parses of the list-endpoint response body. -/
inductive ListBody
  | invalid (e : JsErr)
  | null
  | obj (message : Option String) (animations : List Animation)
  deriving Repr, DecidableEq

/-- React state of the `useAnimation` hook relevant to `listAnimations`. -/
structure AnimListState where
  animations : List Animation
  loading : Bool
  error : Option String
  deriving Repr, DecidableEq

/-- Result of a `listAnimations` call: the error that propagated to the
caller (if any) and the hook state after the call. -/
structure ListResult where
  thrown : Option JsErr
  state : AnimListState
  deriving Repr, DecidableEq

/-- Embedding of `listAnimations` in the `useAnimation` hook.  The guard on
`isAuthenticated` throws before the `try`; then `setLoading(true)` and
`setError(null)` run, the `try` block fetches and on success replaces the
cached list, and the `catch` block only records the error message — unlike
the other operations it does not rethrow; `finally` sets `loading` false. -/
def listAnimations (isAuthenticated : Bool) (storedToken : Option String)
    (outcome : FetchOutcome ListBody) (s : AnimListState) : ListResult :=
  if !isAuthenticated then
    ⟨some ⟨"Error", "Not authenticated"⟩, s⟩
  else if storedToken.isNone then
    ⟨none, { s with error := some "Not authenticated", loading := false }⟩
  else match outcome with
  | .networkFailure e => ⟨none, { s with error := some e.message, loading := false }⟩
  | .response ok body =>
    if ok then
      match body with
      | .invalid e => ⟨none, { s with error := some e.message, loading := false }⟩
      | .null =>
          ⟨none, { s with error := some "Cannot read properties of null", loading := false }⟩
      | .obj _ anims => ⟨none, { s with animations := anims, error := none, loading := false }⟩
    else
      match body with
      | .invalid e => ⟨none, { s with error := some e.message, loading := false }⟩
      | .null =>
          ⟨none, { s with error := some "Cannot read properties of null", loading := false }⟩
      | .obj message _ =>
          let m := message.getD "Failed to list animations"
          ⟨none, { s with error := some m, loading := false }⟩

/-- C10 counterexample: `listAnimations` does propagate an error to its
caller when no authenticated session exists (the guard before the `try`
throws), so it is not true that it never propagates on any failure. -/
theorem listAnimations_unauthenticated_throws :
    (listAnimations false none (.networkFailure ⟨"TypeError", "Failed to fetch"⟩)
        ⟨[], false, none⟩).thrown
      = some ⟨"Error", "Not authenticated"⟩ :=
  rfl

/-- C10 amended: once past the authentication guard (which throws, like
the other operations), `listAnimations` never propagates an error: every
failure — missing token, connection failure, non-2xx response, malformed
body — records an error message and resolves normally with the cached
animations list unchanged; only a successful call (token present, ok
response with an object body) replaces the cached list, clearing the
error. -/
theorem listAnimations_authenticated_swallows (storedToken : Option String)
    (outcome : FetchOutcome ListBody) (s : AnimListState) :
    (listAnimations true storedToken outcome s).thrown = none ∧
    ((∃ t message anims, storedToken = some t ∧ outcome = .response true (.obj message anims) ∧
        (listAnimations true storedToken outcome s).state.animations = anims ∧
        (listAnimations true storedToken outcome s).state.error = none) ∨
      ((listAnimations true storedToken outcome s).state.animations = s.animations ∧
        ∃ m, (listAnimations true storedToken outcome s).state.error = some m)) := by
  cases storedToken with
  | none => exact ⟨rfl, Or.inr ⟨rfl, "Not authenticated", rfl⟩⟩
  | some t =>
    refine ⟨?_, ?_⟩
    · cases outcome with
      | networkFailure e => rfl
      | response ok body => cases ok <;> cases body <;> rfl
    · cases outcome with
      | networkFailure e => exact Or.inr ⟨rfl, e.message, rfl⟩
      | response ok body =>
        cases ok with
        | false =>
          cases body with
          | invalid e => exact Or.inr ⟨rfl, e.message, rfl⟩
          | null => exact Or.inr ⟨rfl, "Cannot read properties of null", rfl⟩
          | obj message anims =>
              exact Or.inr ⟨rfl, message.getD "Failed to list animations", rfl⟩
        | true =>
          cases body with
          | invalid e => exact Or.inr ⟨rfl, e.message, rfl⟩
          | null => exact Or.inr ⟨rfl, "Cannot read properties of null", rfl⟩
          | obj message anims => exact Or.inl ⟨t, message, anims, rfl, rfl, rfl, rfl⟩

/-- The component-level status of `AnimationGenerator`. -/
inductive ComponentStatus
  | idle
  | generating
  | completed
  | error
  deriving Repr, DecidableEq

/-- Embedding of `mapAnimationStatus` in `AnimationGenerator`. -/
def mapAnimationStatus (animationStatus : String) : ComponentStatus :=
  match animationStatus with
  | "pending" => .generating
  | "generating" => .generating
  | "completed" => .completed
  | "error" => .error
  | _ => .idle

/-- Observable terminal events of a poll session: an invocation of the
`onAnimationComplete` callback (carrying the string it is called with) or
a delivered failure transition (`setStatus('error')` together with the
recorded error message). -/
inductive PollEvent
  | completion (payload : String)
  | failure (message : String)
  deriving Repr, DecidableEq

/-- State of the `AnimationGenerator` polling machinery.  `mounted` is
whether the component (and hence its polling effect) is still alive —
tearing it down is the cancellation primitive; `inFlight` holds, for each
issued `checkStatus` call not yet resolved, the `currentAnimationId` its
closure captured; `events` is the trace of terminal events delivered so
far. -/
structure PollerState where
  status : ComponentStatus
  currentAnimationId : Option String
  error : Option String
  mounted : Bool
  inFlight : List String
  events : List PollEvent
  deriving Repr, DecidableEq

/-- The interval installed by the polling effect is alive exactly while
the component is mounted with status `generating` (the effect re-runs on
every status change and only then installs an interval). -/
def intervalAlive (s : PollerState) : Bool :=
  s.mounted && s.status == .generating

/-- Atomic occurrences in a poll session: a timer tick (one `pollStatus`
invocation reaching its `checkStatus` call), cancellation (the component
unmounts: cleanup clears the interval), or the resolution of the
`idx`-th in-flight `checkStatus` call with the given outcome. -/
inductive PollAction
  | tick
  | cancel
  | resolve (idx : Nat) (outcome : Except JsErr Animation)
  deriving Repr

/-- One step of the polling machinery, following `AnimationGenerator`:

* `tick`: the interval fires only while alive; `pollStatus` returns early
  unless the captured `currentAnimationId` is present, otherwise its
  `checkStatus` call joins the in-flight set.
* `cancel`: the cleanup runs `clearInterval`; nothing else happens.
* `resolve`: the continuation after `await checkStatus` runs with no
  liveness check.  While mounted it applies `setStatus`, and on
  `completed` invokes `onAnimationComplete(currentAnimationId)` (the
  captured id) and clears the id; on `error` (or in the `catch` branch)
  records `animation.error || generic` (resp. `err.message`) and clears
  the id.  After unmount the React state updates are discarded, but the
  `onAnimationComplete` invocation on a `completed` response still
  happens, since it is plain code on the local `newStatus`. -/
def pollStep (s : PollerState) (a : PollAction) : PollerState :=
  match a with
  | .tick =>
    if intervalAlive s then
      match s.currentAnimationId with
      | some animationId => { s with inFlight := s.inFlight ++ [animationId] }
      | none => s
    else s
  | .cancel => { s with mounted := false }
  | .resolve idx outcome =>
    match s.inFlight[idx]? with
    | none => s
    | some capturedId =>
      let remaining := s.inFlight.eraseIdx idx
      if s.mounted then
        match outcome with
        | .error e =>
          { s with status := .error, error := some e.message, currentAnimationId := none,
                   inFlight := remaining, events := s.events ++ [.failure e.message] }
        | .ok anim =>
          match mapAnimationStatus anim.status with
          | .completed =>
            { s with status := .completed, currentAnimationId := none, inFlight := remaining,
                     events := s.events ++ [.completion capturedId] }
          | .error =>
            let m := anim.error.getD "Animation generation failed"
            { s with status := .error, error := some m, currentAnimationId := none,
                     inFlight := remaining, events := s.events ++ [.failure m] }
          | ns => { s with status := ns, inFlight := remaining }
      else
        match outcome with
        | .ok anim =>
          if mapAnimationStatus anim.status == .completed then
            { s with inFlight := remaining, events := s.events ++ [.completion capturedId] }
          else { s with inFlight := remaining }
        | .error _ => { s with inFlight := remaining }

/-- Run a poll session trace. -/
def runPoller (s : PollerState) (acts : List PollAction) : PollerState :=
  acts.foldl pollStep s

/-- State right after `generateAnimation` resolved: status `generating`,
the returned id stored, the polling effect mounted with its interval
installed, nothing in flight, no events delivered. -/
def initPoller (animationId : String) : PollerState :=
  ⟨.generating, some animationId, none, true, [], []⟩

/-- A concrete status response: job completed with its video path. -/
def completedAnim : Animation :=
  ⟨"abc123", "u1", "Draw a circle", "completed", some "/v/abc123.mp4", none, "t0", "t1"⟩

/-- A concrete status response: job still pending. -/
def pendingAnim : Animation :=
  ⟨"abc123", "u1", "Draw a circle", "pending", none, none, "t0", "t1"⟩

/-- A concrete status response: job failed with an error message. -/
def errorAnim : Animation :=
  ⟨"abc123", "u1", "Draw a circle", "error", none, some "render failed", "t0", "t1"⟩

/-- C1: evaluation of the polling code on the failing traces.  First: one
status call is issued, the session is cancelled, and the in-flight call
then resolves `completed` — the completion callback still fires after the
cancellation.  Second: two overlapping polls both resolve `completed` —
two terminal events fire in one poll session. -/
theorem poller_cancel_race_divergence :
    (runPoller (initPoller "abc123") [.tick, .cancel, .resolve 0 (.ok completedAnim)]).events
      = [.completion "abc123"] ∧
    (runPoller (initPoller "abc123")
        [.tick, .tick, .resolve 0 (.ok completedAnim), .resolve 0 (.ok completedAnim)]).events
      = [.completion "abc123", .completion "abc123"] :=
  ⟨rfl, rfl⟩

/-- The canonical polling state with one in-flight status call for job `j`. -/
def pollingState (j : String) : PollerState :=
  ⟨.generating, some j, none, true, [j], []⟩

/-- C2 counterexample: on a `completed` response the emitted completion
event carries the job id the poller was started with, not the job's
`videoPath`. -/
theorem poller_completion_payload_is_id :
    (pollStep (pollingState "abc123") (.resolve 0 (.ok completedAnim))).events
      = [.completion "abc123"] ∧
    completedAnim.video_path = some "/v/abc123.mp4" ∧
    PollEvent.completion "abc123" ≠ PollEvent.completion "/v/abc123.mp4" := by
  refine ⟨rfl, rfl, ?_⟩
  decide

/-- C2 amended: from the polling state, a response with status `pending`
or `generating` keeps the poller polling and emits nothing; `completed`
moves it to the terminal completed state and emits a completion event
carrying the job id; `error` moves it to the terminal failed state and
emits a failure event carrying the job's error message, or a generic
message when it is absent. -/
theorem poller_response_mapping (j : String) (anim : Animation) :
    (anim.status = "pending" ∨ anim.status = "generating" →
      pollStep (pollingState j) (.resolve 0 (.ok anim))
        = ⟨.generating, some j, none, true, [], []⟩) ∧
    (anim.status = "completed" →
      pollStep (pollingState j) (.resolve 0 (.ok anim))
        = ⟨.completed, none, none, true, [], [.completion j]⟩) ∧
    (anim.status = "error" →
      pollStep (pollingState j) (.resolve 0 (.ok anim))
        = ⟨.error, none, some (anim.error.getD "Animation generation failed"), true, [],
            [.failure (anim.error.getD "Animation generation failed")]⟩) := by
  refine ⟨?_, ?_, ?_⟩
  · rintro (h | h) <;> simp [pollStep, pollingState, mapAnimationStatus, h]
  · intro h
    simp [pollStep, pollingState, mapAnimationStatus, h]
  · intro h
    simp [pollStep, pollingState, mapAnimationStatus, h]

/-- Witness for C2 (amended): the three branches applied at concrete
responses. -/
theorem poller_response_mapping_witness :
    (pollStep (pollingState "abc123") (.resolve 0 (.ok pendingAnim))
      = ⟨.generating, some "abc123", none, true, [], []⟩) ∧
    (pollStep (pollingState "abc123") (.resolve 0 (.ok completedAnim))
      = ⟨.completed, none, none, true, [], [.completion "abc123"]⟩) ∧
    (pollStep (pollingState "abc123") (.resolve 0 (.ok errorAnim))
      = ⟨.error, none, some "render failed", true, [], [.failure "render failed"]⟩) :=
  ⟨(poller_response_mapping "abc123" pendingAnim).1 (Or.inl rfl),
   (poller_response_mapping "abc123" completedAnim).2.1 rfl,
   (poller_response_mapping "abc123" errorAnim).2.2 rfl⟩

theorem pollStep_id_none_or_preserved (s2 : PollerState) (a : PollAction) :
    (pollStep s2 a).currentAnimationId = none ∨
    (pollStep s2 a).currentAnimationId = s2.currentAnimationId := by
  cases a with
  | tick =>
    by_cases h : intervalAlive s2 = true
    · cases hc : s2.currentAnimationId <;> simp [pollStep, h, hc]
    · simp [pollStep, h]
  | cancel => right; rfl
  | resolve idx outcome =>
    cases hidx : s2.inFlight[idx]? with
    | none => simp [pollStep, hidx]
    | some cid =>
      cases outcome with
      | error e => by_cases hm : s2.mounted = true <;> simp [pollStep, hidx, hm]
      | ok anim =>
        by_cases hm : s2.mounted = true
        · cases hms : mapAnimationStatus anim.status <;> simp [pollStep, hidx, hm, hms]
        · by_cases hcs : (mapAnimationStatus anim.status == ComponentStatus.completed) = true <;>
            simp [pollStep, hidx, hm, hcs]

/-- C4: any error raised by a status call resolving while the component is
mounted (network failure or server error response alike, both arriving as
a rejected `checkStatus` promise) moves the poller to the terminal failed
state with that error surfaced and the failure event delivered, and clears
`currentAnimationId`; moreover ticks issue no status call once the status
has left `generating` or the id is cleared, and no step ever restores a
cleared id — so after a single failed status call the poller never issues
another one. -/
theorem poller_error_is_terminal (s : PollerState) (idx : Nat) (e : JsErr) (j : String)
    (hm : s.mounted = true) (hidx : s.inFlight[idx]? = some j) :
    (pollStep s (.resolve idx (.error e))).status = .error ∧
    (pollStep s (.resolve idx (.error e))).error = some e.message ∧
    (pollStep s (.resolve idx (.error e))).currentAnimationId = none ∧
    (pollStep s (.resolve idx (.error e))).events = s.events ++ [.failure e.message] ∧
    (∀ s2 : PollerState, s2.status ≠ .generating → pollStep s2 .tick = s2) ∧
    (∀ s2 : PollerState, s2.currentAnimationId = none → pollStep s2 .tick = s2) ∧
    (∀ (s2 : PollerState) (a : PollAction), (pollStep s2 a).currentAnimationId = none ∨
      (pollStep s2 a).currentAnimationId = s2.currentAnimationId) := by
  refine ⟨?_, ?_, ?_, ?_, ?_, ?_, pollStep_id_none_or_preserved⟩
  · simp [pollStep, hidx, hm]
  · simp [pollStep, hidx, hm]
  · simp [pollStep, hidx, hm]
  · simp [pollStep, hidx, hm]
  · intro s2 h2
    have halive : intervalAlive s2 = false := by
      simp [intervalAlive, h2]
    simp [pollStep, halive]
  · intro s2 h2
    by_cases h : intervalAlive s2 = true <;> simp [pollStep, h, h2]

/-- Witness for C4: a concrete mounted polling state whose single
in-flight status call rejects. -/
theorem poller_error_is_terminal_witness :
    (pollingState "abc123").mounted = true ∧
    (pollingState "abc123").inFlight[0]? = some "abc123" ∧
    (pollStep (pollingState "abc123")
        (.resolve 0 (.error ⟨"TypeError", "Failed to fetch"⟩))).status = .error ∧
    (pollStep (pollingState "abc123")
        (.resolve 0 (.error ⟨"TypeError", "Failed to fetch"⟩))).error = some "Failed to fetch" :=
  ⟨rfl, rfl,
   (poller_error_is_terminal (pollingState "abc123") 0 ⟨"TypeError", "Failed to fetch"⟩ "abc123"
      rfl rfl).1,
   (poller_error_is_terminal (pollingState "abc123") 0 ⟨"TypeError", "Failed to fetch"⟩ "abc123"
      rfl rfl).2.1⟩

end Manimator
